import Mathlib

/-!
Verification development for the VTuber-searcher discovery pipeline.

The Python source is shallowly embedded here:
* strings are Lean `String`s; Python's substring test `a in b`, `str.lower`,
  `str.strip`, `str.split()` and `re.sub(r'[^\w\s]', '', s)` are modelled by
  the `pyIn`, `pyLower`, `pyTrim`, `pySplit` and `stripPunct`
  functions below (ASCII reading of `\w`);
* numbers that may carry fractional bonuses (scores, thresholds, relevance)
  are rationals;
* Python dict records are Lean structures; a consumer that only reads a key
  through `dict.get(key, default)` sees an absent key as the default, so
  absent keys are encoded by the default value (or by `Option` where the
  code distinguishes absence);
* the wall clock read by `datetime.now()` inside `calculate_adaptive_score`
  is passed in explicitly as a rational timestamp measured in days;
* the human-readable `reasons` strings returned alongside scores are pure
  logging concatenations and are not modelled: only the numeric components
  of each return value are kept;
* network calls are abstracted into a record of response functions
  (`TwitchAPI`), and a platform search that may raise is an `Except` value.
-/

/-! ## Python string primitives -/

/-- Python's `needle in haystack` substring test. -/
def pyIn (needle haystack : String) : Bool :=
  decide (needle.toList <:+: haystack.toList)

/-- Python's `str.lower` (character-wise, like the byte-walking core
`String.toLower` but kernel-reducible). -/
def pyLower (s : String) : String :=
  ⟨s.toList.map Char.toLower⟩

/-- Python's `str.strip()`: drop leading and trailing whitespace. -/
def pyTrim (s : String) : String :=
  ⟨((s.toList.dropWhile Char.isWhitespace).reverse.dropWhile
      Char.isWhitespace).reverse⟩

/-- Split a character list on whitespace runs (words in order, no empties). -/
def pySplitChars (l : List Char) : List (List Char) :=
  (l.foldr (fun c acc =>
    if c.isWhitespace then [] :: acc
    else match acc with
      | [] => [[c]]
      | w :: ws => (c :: w) :: ws) []).filter fun w => w ≠ []

/-- Python's `str.split()` (split on whitespace runs, dropping empty parts). -/
def pySplit (s : String) : List String :=
  (pySplitChars s.toList).map fun w => ⟨w⟩

/-- ASCII reading of the regex class `\w` (`[A-Za-z0-9_]`). -/
def isWordChar (c : Char) : Bool :=
  c.isAlphanum || c = '_'

/-- Python's `re.sub(r'[^\w\s]', '', s)`: drop every character that is
neither a word character nor whitespace. -/
def stripPunct (s : String) : String :=
  ⟨s.toList.filter fun c => isWordChar c || c.isWhitespace⟩

/-! ## Keyword tables (`VTuberFilters.__init__`) -/

def vtuber_keywords_high : List String :=
  ["vtuber", "virtual youtuber", "virtual streamer", "vtubing",
   "live2d", "rigging", "anime avatar", "virtual avatar",
   "virtual idol", "virtual personality", "virtual character",
   "vtuber italiana", "virtual youtuber italiana", "streamer virtuale",
   "avatar virtuale", "personaggio virtuale", "idol virtuale"]

def vtuber_keywords_medium : List String :=
  ["anime", "kawaii", "moe", "otaku", "weeb", "japanese",
   "virtual", "avatar", "character", "model", "streamer",
   "anime italiano", "kawaii italiano", "otaku italiano",
   "personaggio", "modello", "streamer italiano"]

def vtuber_indicators : List String :=
  ["vtuber", "virtual youtuber", "virtual streamer", "anime avatar",
   "live2d", "rigging", "model", "character", "vtubing",
   "virtual idol", "virtual personality", "virtual character", "anime streamer",
   "vtuber italiana", "virtual youtuber italiana", "streamer virtuale",
   "avatar anime", "personaggio virtuale", "idol virtuale", "vtubing italiano"]

def negative_keywords : List String :=
  ["irl", "face cam", "real person", "no avatar", "camera",
   "real streamer", "non-vtuber", "human streamer",
   "persona reale", "faccia vera", "senza avatar", "streamer reale",
   "non vtuber", "streamer umano", "webcam", "faccia in diretta"]

def vtuber_agencies : List String :=
  ["hololive", "nijisanji", "vshojo", "vspo", "anycolor",
   "774inc", "upd8", "reality", "neo-porte", "v4mirai",
   "kamitsubaki", "noripro", "sugar lyric", "prism project",
   "vtuber italia", "vtuber italiani", "virtual youtuber italia",
   "anime italia", "otaku italia", "vtuber community italia",
   "italian vtuber", "italy vtuber", "italian virtual youtuber"]

def italian_terms : List String :=
  ["italiana", "italiano", "italia", "roma", "milano", "napoli",
   "torino", "bologna", "firenze", "venezia", "genova", "palermo",
   "città", "regione", "provincia", "comune", "italia"]

def english_terms : List String :=
  ["english", "british", "american", "canadian", "australian",
   "uk", "usa", "canada", "australia", "england", "london",
   "new york", "los angeles", "toronto", "sydney"]

/-! ## Name matching (`is_name_match`, `is_name_match_fuzzy`) -/

/-- `VTuberFilters.is_name_match` (the strict matcher); the `debug` flag only
prints and is dropped. -/
def is_name_match (channel_name search_name : String) : Bool :=
  let channel_lower := pyTrim (pyLower channel_name)
  let search_lower := pyTrim (pyLower search_name)
  if channel_lower = search_lower then true
  else if pyIn search_lower channel_lower then true
  else if pyIn channel_lower search_lower then true
  else
    let search_words := pySplit search_lower
    let channel_words := pySplit channel_lower
    if search_words.length > 1 then
      let matching_words := (search_words.filter fun word =>
        channel_words.any fun cw => pyIn word cw).length
      if (matching_words : ℚ) / search_words.length ≥ 6/10 then true
      else false
    else if search_words.length = 1 then
      let search_word := search_words.headI
      channel_words.any fun channel_word =>
        pyIn search_word channel_word || pyIn channel_word search_word
    else false

/-- The stop-list consulted before the containment branch of
`is_name_match_fuzzy` (line 168 of `vtuber_filters.py`). -/
def common_words_contain : List String :=
  ["gamer", "tv", "official", "channel", "live", "stream", "youtube", "twitch"]

/-- The stop-list consulted in the single-word branch of
`is_name_match_fuzzy` (line 204 of `vtuber_filters.py`). -/
def common_words_single : List String :=
  ["gamer", "tv", "official", "channel", "live", "stream", "youtube", "twitch",
   "vtuber", "virtual"]

/-- `VTuberFilters.is_name_match_fuzzy`.  The `threshold` parameter is kept in
the signature exactly as in the source, where it is never read (the multi-word
cutoff is the literal `0.7`); the `debug` flag only prints and is dropped. -/
def is_name_match_fuzzy (channel_name search_name : String) (threshold : ℚ) : Bool :=
  let channel_clean := stripPunct (pyLower channel_name)
  let search_clean := stripPunct (pyLower search_name)
  if channel_clean = search_clean then true
  else if pyIn search_clean channel_clean ∧ search_clean ∉ common_words_contain then true
  else if pyIn channel_clean search_clean then true
  else
    let search_words := pySplit search_clean
    let channel_words := pySplit channel_clean
    if search_words.length > 1 ∧
        ((search_words.filter fun word =>
          channel_words.any fun cw => pyIn word cw).length : ℚ)
          / search_words.length ≥ 7/10 then true
    else if search_words.length = 1 ∧ search_words.headI ∈ common_words_single then
      false
    else if search_words.length = 1 ∧ channel_words.any (fun channel_word =>
        search_words.headI.length ≥ 4 ∧ channel_word.length ≥ 4 ∧
        (pyIn search_words.headI channel_word ∨ pyIn channel_word search_words.headI)) then
      true
    else
      search_words.any fun search_word =>
        channel_words.any fun channel_word =>
          search_word.length ≥ 4 && channel_word.length ≥ 4 &&
          (pyIn (search_word.take 4) channel_word || pyIn (channel_word.take 4) search_word)

/-! ## Language focus detection (`detect_language_focus`) -/

/-- Shape of one entry of `name_patterns`: every regex in that table is either
one-or-more ASCII letters followed by a fixed literal, or a fixed literal
followed by one-or-more ASCII letters. -/
inductive PatKind where
  | lettersThenLit : PatKind
  | litThenLetters : PatKind
deriving DecidableEq, Repr

/-- One entry of `name_patterns`: the raw Python regex string (used by the
`'_ITA' in pattern` checks of `detect_language_focus`) together with its
shape and its fixed literal part, lowercased for `re.IGNORECASE`. -/
structure NamePattern where
  raw : String
  kind : PatKind
  lit : String
deriving DecidableEq, Repr

def name_patterns : List NamePattern :=
  [⟨"[A-Za-z]+_ITA", .lettersThenLit, "_ita"⟩,
   ⟨"[A-Za-z]+_Italia", .lettersThenLit, "_italia"⟩,
   ⟨"[A-Za-z]+_Italian", .lettersThenLit, "_italian"⟩,
   ⟨"ITA_[A-Za-z]+", .litThenLetters, "ita_"⟩,
   ⟨"Italia_[A-Za-z]+", .litThenLetters, "italia_"⟩,
   ⟨"Italian_[A-Za-z]+", .litThenLetters, "italian_"⟩,
   ⟨"[A-Za-z]+_EN", .lettersThenLit, "_en"⟩,
   ⟨"[A-Za-z]+_English", .lettersThenLit, "_english"⟩,
   ⟨"[A-Za-z]+_UK", .lettersThenLit, "_uk"⟩,
   ⟨"EN_[A-Za-z]+", .litThenLetters, "en_"⟩,
   ⟨"English_[A-Za-z]+", .litThenLetters, "english_"⟩,
   ⟨"UK_[A-Za-z]+", .litThenLetters, "uk_"⟩,
   ⟨"[A-Za-z]+_VT", .lettersThenLit, "_vt"⟩,
   ⟨"[A-Za-z]+_Vtuber", .lettersThenLit, "_vtuber"⟩,
   ⟨"[A-Za-z]+_Virtual", .lettersThenLit, "_virtual"⟩,
   ⟨"VT_[A-Za-z]+", .litThenLetters, "vt_"⟩,
   ⟨"Vtuber_[A-Za-z]+", .litThenLetters, "vtuber_"⟩,
   ⟨"Virtual_[A-Za-z]+", .litThenLetters, "virtual_"⟩]

/-- `re.search` for a `[A-Za-z]+lit` pattern on a lowercased character list:
some position holds a letter immediately followed by the literal. -/
def lettersThenLitMatch (lit : List Char) : List Char → Bool
  | [] => false
  | c :: rest => (c.isAlpha && lit.isPrefixOf rest) || lettersThenLitMatch lit rest

/-- `re.search` for a `lit[A-Za-z]+` pattern on a lowercased character list:
some position starts with the literal, immediately followed by a letter. -/
def litThenLettersMatch (lit : List Char) : List Char → Bool
  | [] => false
  | c :: rest =>
      (lit.isPrefixOf (c :: rest) &&
        (match (c :: rest).drop lit.length with
         | [] => false
         | d :: _ => d.isAlpha)) || litThenLettersMatch lit rest

/-- `re.search(pattern, text, re.IGNORECASE)` for one `name_patterns` entry. -/
def patMatches (p : NamePattern) (text : String) : Bool :=
  match p.kind with
  | .lettersThenLit => lettersThenLitMatch p.lit.toList (pyLower text).toList
  | .litThenLetters => litThenLettersMatch p.lit.toList (pyLower text).toList

/-- `VTuberFilters.detect_language_focus`, returning
`max(italian_score, english_score)`; the reasons string is not modelled. -/
def detect_language_focus (text : String) : ℚ :=
  let text_lower := pyLower text
  let italian0 : ℚ := if italian_terms.any (fun t => pyIn t text_lower) then 3 else 0
  let english0 : ℚ := if english_terms.any (fun t => pyIn t text_lower) then 2 else 0
  let isItaPat : NamePattern → Bool := fun p =>
    pyIn "_ITA" p.raw || pyIn "_Italia" p.raw || pyIn "_Italian" p.raw
  let isEnPat : NamePattern → Bool := fun p =>
    pyIn "_EN" p.raw || pyIn "_English" p.raw || pyIn "_UK" p.raw
  let patItalian : ℚ :=
    ((name_patterns.filter fun p => patMatches p text && isItaPat p).length : ℚ) * 2
  let patEnglish : ℚ :=
    ((name_patterns.filter fun p =>
        patMatches p text && !isItaPat p && isEnPat p).length : ℚ) * 2
  let indItalian : ℚ :=
    if pyIn "italiano" text_lower || pyIn "italiana" text_lower then 1 else 0
  let indEnglish : ℚ :=
    if pyIn "english" text_lower || pyIn "british" text_lower
        || pyIn "american" text_lower then 1 else 0
  max (italian0 + patItalian + indItalian) (english0 + patEnglish + indEnglish)

/-! ## Candidate records (`channel_data` dicts)

Every consumer reads keys through `dict.get(key, default)`, so an absent key
is observationally the default value; `subscriber_count` is a string run
through `int()` with errors swallowed, modelled as `Option ℤ` (`none` =
unparsable, the default `'0'` = `some 0`); `discovered_at` is an ISO
timestamp parsed with errors swallowed, modelled as `Option ℚ` measured in
days (`none` = absent or unparsable). -/

structure ChannelData where
  display_name : String := ""
  title : String := ""
  description : String := ""
  name : String := ""
  snippet_title : String := ""
  snippet_description : String := ""
  is_live : Bool := false
  broadcaster_type : String := ""
  viewer_count : ℤ := 0
  subscriber_count : Option ℤ := some 0
  discovered_at : Option ℚ := none
deriving DecidableEq, Repr

/-- Platform-dependent text extraction at the top of `calculate_vtuber_score`
(already lowercased, as in the source). -/
def extractTexts (d : ChannelData) (platform : String) : String × String × String :=
  if platform = "twitch" then
    (pyLower d.display_name, pyLower d.title, pyLower d.description)
  else if platform = "youtube" then
    (pyLower d.snippet_title, "", pyLower d.snippet_description)
  else
    (pyLower d.name, pyLower d.title, pyLower d.description)

/-! ## Classifier (`calculate_vtuber_score`)

The source accumulates the score with sequential `score += c` statements;
the contributions are independent, so the embedding names each block and
sums them. -/

def scoreNameHigh (display_name : String) : ℚ :=
  if vtuber_keywords_high.any (fun kw => pyIn kw display_name) then 5 else 0

def scoreTitleHigh (title : String) : ℚ :=
  if vtuber_keywords_high.any (fun kw => pyIn kw title) then 4 else 0

def scoreNameMedium (display_name : String) : ℚ :=
  if vtuber_keywords_medium.any (fun kw => pyIn kw display_name) then 2 else 0

def scoreTitleMedium (title : String) : ℚ :=
  if vtuber_keywords_medium.any (fun kw => pyIn kw title) then 1 else 0

def scoreDescIndicators (description : String) : ℚ :=
  if vtuber_indicators.any (fun ind => pyIn ind description) then 4 else 0

def scoreAgency (all_text : String) : ℚ :=
  if vtuber_agencies.any (fun agency => pyIn agency all_text) then 6 else 0

def scoreLanguage (all_text : String) : ℚ :=
  let language_score := detect_language_focus all_text
  if language_score > 0 then language_score else 0

def scoreNegative (all_text : String) : ℚ :=
  if negative_keywords.any (fun neg => pyIn neg all_text) then -5 else 0

/-- `any(vt in all_text for vt in self.vtuber_keywords_high + self.vtuber_keywords_medium)`. -/
def hasVtuberKeyword (all_text : String) : Bool :=
  (vtuber_keywords_high ++ vtuber_keywords_medium).any fun vt => pyIn vt all_text

def non_vtuber_indicators : List String :=
  ["gaming", "gameplay", "review", "tutorial", "news", "music", "cooking", "fitness"]

def scoreNonVtuber (all_text : String) : ℚ :=
  if non_vtuber_indicators.any (fun ind => pyIn ind all_text) ∧ ¬ hasVtuberKeyword all_text
  then -3 else 0

def anime_terms : List String :=
  ["anime", "kawaii", "moe", "otaku", "weeb", "japanese", "manga"]

def scoreAnime (all_text : String) : ℚ :=
  if anime_terms.any (fun term => pyIn term all_text) then 1 else 0

def streaming_terms : List String :=
  ["streamer", "content creator", "live", "gaming", "chat"]

def scoreStreaming (all_text : String) : ℚ :=
  if streaming_terms.any (fun term => pyIn term all_text) then 1/2 else 0

/-- `re.compile(r'[^\w\s]').findall(display_name)` is nonempty. -/
def scoreEmoji (display_name : String) : ℚ :=
  if display_name.toList.any (fun c => !(isWordChar c || c.isWhitespace)) then 1 else 0

def scoreGamer (display_name all_text : String) : ℚ :=
  if pyIn "gamer" display_name ∧ ¬ hasVtuberKeyword all_text then -2 else 0

/-- A character of the `[぀-ゟ゠-ヿ一-龯]` class. -/
def isJapaneseChar (c : Char) : Bool :=
  (0x3040 ≤ c.val && c.val ≤ 0x309F) || (0x30A0 ≤ c.val && c.val ≤ 0x30FF) ||
  (0x4E00 ≤ c.val && c.val ≤ 0x9FAF)

def scoreJapanese (all_text : String) : ℚ :=
  if all_text.toList.any isJapaneseChar then 1 else 0

/-- `VTuberFilters.calculate_vtuber_score`; the reasons trail is not
modelled, only the numeric score. -/
def calculate_vtuber_score (d : ChannelData) (platform : String) : ℚ :=
  let texts := extractTexts d platform
  let display_name := texts.1
  let title := texts.2.1
  let description := texts.2.2
  let all_text := display_name ++ " " ++ title ++ " " ++ description
  scoreNameHigh display_name + scoreTitleHigh title +
  scoreNameMedium display_name + scoreTitleMedium title +
  scoreDescIndicators description + scoreAgency all_text +
  scoreLanguage all_text + scoreNegative all_text + scoreNonVtuber all_text +
  scoreAnime all_text + scoreStreaming all_text + scoreEmoji display_name +
  scoreGamer display_name all_text + scoreJapanese all_text

/-! ## Adaptive scoring (`calculate_adaptive_score`,
`is_vtuber_channel_adaptive`) -/

/-- The recency block of `calculate_adaptive_score`:
`(datetime.now() - discovery_time).days < 7` adds `+0.5`.  `now` is the
wall-clock time in days; `timedelta.days` floors. -/
def recencyBonus (score : ℚ) (discovered_at : Option ℚ) (now : ℚ) : ℚ :=
  match discovered_at with
  | some t => if ⌊now - t⌋ < 7 then score + 1/2 else score
  | none => score

/-- `VTuberFilters.calculate_adaptive_score`, returning
`(score, threshold)`; the reasons trail is not modelled.  The wall clock
read by `datetime.now()` is the explicit `now` argument. -/
def calculate_adaptive_score (d : ChannelData) (platform : String) (now : ℚ) :
    ℚ × ℚ :=
  let base_score := calculate_vtuber_score d platform
  if platform = "twitch" then
    let threshold : ℚ := 2
    let base_score := if d.is_live then base_score + 1 else base_score
    let base_score :=
      if d.broadcaster_type = "partner" ∨ d.broadcaster_type = "affiliate"
      then base_score + 2 else base_score
    let base_score := if d.viewer_count > 100 then base_score + 1 else base_score
    (recencyBonus base_score d.discovered_at now, threshold)
  else
    -- the source writes this branch's threshold as the float literal `2.0`
    let threshold : ℚ := 2
    let base_score :=
      match d.subscriber_count with
      | some sub_count => if sub_count > 1000 then base_score + 1 else base_score
      | none => base_score
    (recencyBonus base_score d.discovered_at now, threshold)

/-- `VTuberFilters.is_vtuber_channel_adaptive`; the `debug` flag only prints
and is dropped. -/
def is_vtuber_channel_adaptive (d : ChannelData) (platform : String) (now : ℚ) :
    Bool :=
  let st := calculate_adaptive_score d platform now
  let score := st.1
  let threshold := st.2
  if platform = "youtube" ∧ score < threshold ∧ score ≥ 3/2 then true
  else decide (score ≥ threshold)

/-! ## Discovered-performer records and the result aggregator
(`base_scraper.remove_duplicates` / `sort_by_relevance`; `twitch_scraper`
carries verbatim copies of both)

The record keeps the fields the aggregator and the claims read; the
formatting-only fields (`url`, `avatar_url`, `vtuber_reasons`,
`language_focus`, the `discovered_at` wall-clock stamp) are not modelled.
`search_stage` is `Option String`: `none` encodes a record without the key,
as `dict.get('search_stage')` then returns `None`. -/

structure VTuber where
  platform : String := "twitch"
  id : String := ""
  name : String := ""
  description : String := ""
  stream_title : String := ""
  language : String := ""
  is_live : Bool := false
  broadcaster_type : String := ""
  viewer_count : ℤ := 0
  subscriber_count : Option ℤ := none
  view_count : Option ℤ := none
  tags : List String := []
  vtuber_score : ℚ := 0
  search_stage : Option String := none
deriving DecidableEq, Repr

/-- One step of the `unique_results` dict loop in `remove_duplicates`: a
fresh id is appended; a colliding id keeps its dict position and is replaced
only when the new record's score is strictly higher. -/
def dedupeInsert : List VTuber → VTuber → List VTuber
  | [], v => [v]
  | x :: xs, v =>
      if x.id = v.id then
        if v.vtuber_score > x.vtuber_score then v :: xs else x :: xs
      else
        x :: dedupeInsert xs v

/-- `remove_duplicates` (identical in `base_scraper.py` and
`twitch_scraper.py`): fold the dict loop, then read the values back in
insertion order. -/
def remove_duplicates (results : List VTuber) : List VTuber :=
  results.foldl dedupeInsert []

/-- The `relevance_score` closure inside `sort_by_relevance`
(`base_scraper.py`; the `twitch_scraper.py` copy is this function with
`platform` fixed to `"twitch"`). -/
def relevance_score (platform : String) (v : VTuber) : ℚ :=
  let score := v.vtuber_score
  let score :=
    if platform = "twitch" then
      let score := if v.is_live then score + 2 else score
      let score :=
        if v.broadcaster_type = "partner" ∨ v.broadcaster_type = "affiliate"
        then score + 1 else score
      if v.viewer_count > 100 then score + 1/2 else score
    else if platform = "youtube" then
      let score :=
        match v.subscriber_count with
        | some sub_count => if sub_count > 1000 then score + 1 else score
        | none => score
      match v.view_count with
      | some views => if views > 10000 then score + 1/2 else score
      | none => score
    else score
  if v.search_stage = some "tags" then score + 3 else score

/-- `sort_by_relevance`: Python's `sorted(results, key=relevance_score,
reverse=True)` is the stable descending sort: each element is inserted in
front of the first already-placed element whose key it ties or beats
(`insertionSort`, which is stable and keeps equal keys in input order
exactly as CPython's stable sort does). -/
def sort_by_relevance (results : List VTuber) (platform : String) : List VTuber :=
  results.insertionSort fun a b =>
    relevance_score platform b ≤ relevance_score platform a

/-! ## Twitch multi-stage search (`twitch_scraper.py`)

The network surface is abstracted into a record of response functions.
Raw response records keep the keys the scraper reads:
* `search/channels` entries (`RawChannel`) — id, display name, title,
  live flag;
* `users` entries (`RawUser`) — id, login, display name, description,
  broadcaster type; in a `{**channel, **user}` dict merge the user's
  `display_name` wins, and keys absent from both sides read back as the
  `dict.get` defaults;
* `streams` entries (`RawStream`) — user id, title, viewer count (plus the
  live flag that `search/channels`-shaped responses carry, since
  `search_live_streams` also queries `search/channels`).

`get_user_info` chunks its id list into batches of 100 and concatenates the
per-batch responses; the abstraction `getUsers` is that concatenation. -/

structure RawChannel where
  id : String := ""
  display_name : String := ""
  title : String := ""
  is_live : Bool := false
deriving DecidableEq, Repr

structure RawUser where
  id : String := ""
  login : String := ""
  display_name : String := ""
  description : String := ""
  broadcaster_type : String := ""
deriving DecidableEq, Repr

structure RawStream where
  user_id : String := ""
  title : String := ""
  viewer_count : ℤ := 0
  is_live : Bool := false
deriving DecidableEq, Repr

structure TwitchAPI where
  searchChannels : String → List RawChannel
  searchLiveStreams : String → List RawStream
  streamsByTag : String → List RawStream
  getUsers : List String → List RawUser
  streamTags : String → List String

/-- The fixed tag-id list of `find_vtuber_by_tags`. -/
def vtuber_tag_ids : List String :=
  ["6ea6bca4-4712-4ad9-8b54-3b5d9d2256f4",
   "9166ad14-41f1-4b04-a3b8-c8eb8388866f",
   "c2542d6d-cd10-4532-919b-60d5674a5ef3",
   "d4bb9c58-2141-4c54-9cb6-35b3a36b416e",
   "f7ed6b29-0f3d-4c2d-8a0f-40e6184169a5",
   "9f1b9a4a-0b1d-4c2d-8a0f-40e6184169a5",
   "7c49ea59-aa85-4c2d-8a0f-40e6184169a5"]

/-- The result dict built inside `find_vtuber_by_tags`; it hard-codes
`vtuber_score = 10` and carries NO `search_stage` key (`none` here). -/
def mkTagVtuber (stream : RawStream) (user : RawUser) (tag_names : List String) :
    VTuber :=
  { platform := "twitch", id := stream.user_id, name := user.display_name,
    description := user.description, stream_title := stream.title,
    is_live := true, broadcaster_type := user.broadcaster_type,
    viewer_count := stream.viewer_count, tags := tag_names,
    vtuber_score := 10, search_stage := none }

/-- One step of the tag-stage `unique_vtubers` dict: dict position is the
first insertion's, the value is the last assignment's. -/
def dictInsertLast : List VTuber → VTuber → List VTuber
  | [], v => [v]
  | x :: xs, v => if x.id = v.id then v :: xs else x :: dictInsertLast xs v

/-- `TwitchScraper.find_vtuber_by_tags`. -/
def find_vtuber_by_tags (api : TwitchAPI) (vtuber_name : String) : List VTuber :=
  let vtubers := vtuber_tag_ids.flatMap fun tag_id =>
    (api.streamsByTag tag_id).flatMap fun stream =>
      match (api.getUsers [stream.user_id]).head? with
      | none => []
      | some user =>
        let tag_names := api.streamTags stream.user_id
        let vtuber_tag_present := tag_names.any fun tag =>
          pyIn "vtuber" (pyLower tag) || pyIn "virtual" (pyLower tag) ||
          pyIn "live2d" (pyLower tag) || pyIn "anime" (pyLower tag)
        if vtuber_tag_present then
          let stream_title := pyLower stream.title
          let user_name := pyLower user.display_name
          let search_name := pyLower vtuber_name
          let name_matches :=
            pyIn search_name stream_title || pyIn search_name user_name ||
            pyIn user_name search_name ||
            (pySplit search_name).any (fun word => pyIn word user_name) ||
            (pySplit search_name).any (fun word => pyIn word stream_title)
          if name_matches then [mkTagVtuber stream user tag_names] else []
        else []
  let unique_vtubers := vtubers.foldl dictInsertLast []
  unique_vtubers.insertionSort fun a b => b.viewer_count ≤ a.viewer_count

/-- The `{**channel, **user}` merge fed to the scorer in the fuzzy stage. -/
def mergeChannelUser (c : RawChannel) (u : RawUser) : ChannelData :=
  { display_name := u.display_name, title := c.title,
    description := u.description, is_live := c.is_live,
    broadcaster_type := u.broadcaster_type }

/-- The result dict built inside `find_vtuber_fuzzy` (`is_live` is the
literal `False` there and no viewer count is stored). -/
def mkFuzzyVtuber (c : RawChannel) (u : RawUser) (score : ℚ) : VTuber :=
  { platform := "twitch", id := c.id, name := c.display_name,
    description := u.description, is_live := false,
    broadcaster_type := u.broadcaster_type,
    vtuber_score := score, search_stage := some "fuzzy" }

/-- `TwitchScraper.find_vtuber_fuzzy` (`is_name_match_fuzzy` is called with
its default `threshold=0.6`). -/
def find_vtuber_fuzzy (api : TwitchAPI) (vtuber_name : String) (now : ℚ) :
    List VTuber :=
  let channels := api.searchChannels vtuber_name
  if channels = [] then []
  else
    let user_info := api.getUsers (channels.map fun ch => ch.id)
    channels.flatMap fun channel =>
      match user_info.find? (fun u => u.id == channel.id) with
      | none => []
      | some user =>
        if is_name_match_fuzzy channel.display_name vtuber_name (6/10) then
          let combined_data := mergeChannelUser channel user
          if is_vtuber_channel_adaptive combined_data "twitch" now then
            let st := calculate_adaptive_score combined_data "twitch" now
            [mkFuzzyVtuber channel user st.1]
          else []
        else []

/-- The content-indicator list of `find_vtuber_by_content`. -/
def content_indicators : List String :=
  ["vtuber", "virtual", "avatar", "anime", "live2d",
   "kawaii", "moe", "otaku", "japanese", "character"]

/-- The `{**stream, **user}` merge fed to the scorer in the content stage. -/
def mergeStreamUser (s : RawStream) (u : RawUser) : ChannelData :=
  { display_name := u.display_name, title := s.title,
    description := u.description, is_live := s.is_live,
    broadcaster_type := u.broadcaster_type, viewer_count := s.viewer_count }

/-- The result dict built inside `find_vtuber_by_content`. -/
def mkContentVtuber (s : RawStream) (u : RawUser) (score : ℚ) : VTuber :=
  { platform := "twitch", id := s.user_id, name := u.display_name,
    description := u.description, stream_title := s.title, is_live := true,
    broadcaster_type := u.broadcaster_type, viewer_count := s.viewer_count,
    vtuber_score := score, search_stage := some "content" }

/-- `TwitchScraper.find_vtuber_by_content`. -/
def find_vtuber_by_content (api : TwitchAPI) (vtuber_name : String) (now : ℚ) :
    List VTuber :=
  let live_streams := api.searchLiveStreams vtuber_name
  if live_streams = [] then []
  else
    let user_info := api.getUsers (live_streams.map fun s => s.user_id)
    live_streams.flatMap fun stream =>
      match user_info.find? (fun u => u.id == stream.user_id) with
      | none => []
      | some user =>
        let stream_title := pyLower stream.title
        let user_description := pyLower user.description
        let has_vtuber_content := content_indicators.any fun ind =>
          pyIn ind stream_title || pyIn ind user_description
        if has_vtuber_content then
          if is_name_match user.display_name vtuber_name then
            let combined_data := mergeStreamUser stream user
            let st := calculate_adaptive_score combined_data "twitch" now
            if st.1 ≥ max (st.2 - 1) 1 then [mkContentVtuber stream user st.1]
            else []
          else []
        else []

/-- `TwitchScraper.find_vtuber_enhanced`: concatenate the three stages,
deduplicate, rank (the twitch copy of `sort_by_relevance`). -/
def find_vtuber_enhanced (api : TwitchAPI) (vtuber_name : String) (now : ℚ) :
    List VTuber :=
  let results := find_vtuber_by_tags api vtuber_name ++
    find_vtuber_fuzzy api vtuber_name now ++
    find_vtuber_by_content api vtuber_name now
  sort_by_relevance (remove_duplicates results) "twitch"

/-! ## Orchestrator (`scrapers.__init__.search_vtuber`)

`asyncio.gather(..., return_exceptions=True)` delivers each platform branch
as either a result list or the exception it raised; each branch outcome is
its own `Except` value here, and an exception is replaced by the empty
list. -/

structure SearchResponse where
  twitch : List VTuber
  youtube : List VTuber
  total_results : ℕ
deriving DecidableEq, Repr

/-- `search_vtuber`: exceptions are contained per platform, the response is
always a non-error dict. -/
def search_vtuber (twitch_results youtube_results : Except String (List VTuber)) :
    SearchResponse :=
  let t := match twitch_results with | .ok l => l | .error _ => []
  let y := match youtube_results with | .ok l => l | .error _ => []
  { twitch := t, youtube := y, total_results := t.length + y.length }

/-! ## Concrete scenarios used by witnesses and counterexamples -/

attribute [local semireducible] Rat.add Rat.mul Rat.sub Rat.inv

/-- The synthetic candidate of the spec's end-to-end tag-stage property:
display name `"Kuro_VT"`, one descriptive tag `"vtuber"`. -/
def kuroUser : RawUser :=
  { id := "u1", login := "kuro_vt", display_name := "Kuro_VT" }

def kuroStream : RawStream :=
  { user_id := "u1", title := "", viewer_count := 0 }

/-- A Twitch API surface where the first VTuber tag id returns the Kuro
stream and every other endpoint is empty. -/
def kuroApi : TwitchAPI :=
  { searchChannels := fun _ => []
    searchLiveStreams := fun _ => []
    streamsByTag := fun tag_id =>
      if tag_id = "6ea6bca4-4712-4ad9-8b54-3b5d9d2256f4" then [kuroStream] else []
    getUsers := fun ids => if ids.contains "u1" then [kuroUser] else []
    streamTags := fun uid => if uid = "u1" then ["vtuber"] else [] }

/-- The record `find_vtuber_by_tags` builds for the Kuro candidate:
score 10, live, and crucially NO `search_stage` key. -/
def kuroResult : VTuber :=
  { platform := "twitch", id := "u1", name := "Kuro_VT", is_live := true,
    viewer_count := 0, tags := ["vtuber"], vtuber_score := 10,
    search_stage := none }

/-- A candidate with strong corroborating context (currently live). -/
def ctxLive : ChannelData := { display_name := "abc", is_live := true }

/-- The identical candidate without that context. -/
def ctxIdle : ChannelData := { display_name := "abc", is_live := false }

/-- A candidate carrying a discovery timestamp (day 0). -/
def ctxRecent : ChannelData := { display_name := "abc", discovered_at := some 0 }

/-- Two records sharing an id with different scores, and two sharing an id
with tied scores, for the deduplication properties. -/
def vLow : VTuber := { id := "x", name := "low", vtuber_score := 1 }

def vHigh : VTuber := { id := "x", name := "high", vtuber_score := 2 }

def vTieA : VTuber := { id := "y", name := "first", vtuber_score := 3 }

def vTieB : VTuber := { id := "y", name := "second", vtuber_score := 3 }

/-- The `all_text` string assembled by `calculate_vtuber_score` on the
twitch extraction path. -/
def twitchAllText (d : ChannelData) : String :=
  pyLower d.display_name ++ " " ++ pyLower d.title ++ " " ++
    pyLower d.description

/-! ## Theorems -/

/-- The threshold computed by `calculate_adaptive_score` is the constant of
the platform branch, and both branches write 2 (`2` and `2.0`): no candidate
context ever changes it. -/
theorem adaptive_threshold_eq (d : ChannelData) (platform : String) (now : ℚ) :
    (calculate_adaptive_score d platform now).2 = 2 := by
  by_cases h : platform = "twitch" <;> simp [calculate_adaptive_score, h]

/-- C9: `is_name_match_fuzzy` never reads its `threshold` parameter (the
multi-word cutoff is the fixed literal `0.7`), so any two threshold values
give the same boolean on the same names. -/
theorem is_name_match_fuzzy_threshold_irrelevant
    (channel_name search_name : String) (t t' : ℚ) :
    is_name_match_fuzzy channel_name search_name t =
      is_name_match_fuzzy channel_name search_name t' := rfl

/-- C3 counterexample: a live candidate (strong corroborating context) gets
exactly the same threshold as the identical non-live candidate, so the
threshold is not strictly lower with context. -/
theorem adaptive_threshold_not_lower_for_live :
    ¬ ((calculate_adaptive_score ctxLive "twitch" 0).2 <
        (calculate_adaptive_score ctxIdle "twitch" 0).2) := by decide

/-- C3 amended: for every candidate and platform the returned threshold is
the context-free platform constant 2 (the YouTube branch writes it `2.0`);
corroborating context (live status, verification, audience, recency) adds
score bonuses instead of lowering the threshold. -/
theorem adaptive_threshold_context_free (d : ChannelData) (platform : String)
    (now : ℚ) : (calculate_adaptive_score d platform now).2 = 2 :=
  adaptive_threshold_eq d platform now

/-- C8 counterexample: with a `discovered_at` timestamp present,
`calculate_adaptive_score` reads the wall clock — the same candidate scores
differently when evaluated at day 0 (recent: +0.5) and at day 10. -/
theorem adaptive_score_clock_dependent :
    (calculate_adaptive_score ctxRecent "twitch" 0).1 ≠
      (calculate_adaptive_score ctxRecent "twitch" 10).1 := by decide

/-- C8 amended: `calculate_vtuber_score`, `is_name_match` and
`is_name_match_fuzzy` are pure functions of their arguments (they take no
clock), but `calculate_adaptive_score` consults `datetime.now()`: its result
is clock-independent exactly on candidates without a `discovered_at`
timestamp. -/
theorem adaptive_score_clock_free_without_timestamp (d : ChannelData)
    (platform : String) (t t' : ℚ) (h : d.discovered_at = none) :
    calculate_adaptive_score d platform t = calculate_adaptive_score d platform t' := by
  by_cases hp : platform = "twitch" <;>
    simp [calculate_adaptive_score, recencyBonus, h, hp]

/-- C8 witness: a candidate without a timestamp evaluated at two different
clock readings. -/
theorem adaptive_score_clock_free_witness :
    calculate_adaptive_score { display_name := "abc" } "twitch" 0 =
      calculate_adaptive_score { display_name := "abc" } "twitch" 5 :=
  adaptive_score_clock_free_without_timestamp _ _ 0 5 rfl

/-- C6: a platform branch that raises is replaced by an empty list for that
platform only; the other platform's list is returned unchanged and the
response is a plain record with the correct total. -/
theorem search_vtuber_contains_failure (e : String) (l : List VTuber) :
    search_vtuber (.error e) (.ok l) =
      { twitch := [], youtube := l, total_results := l.length } ∧
    search_vtuber (.ok l) (.error e) =
      { twitch := l, youtube := [], total_results := l.length } := by
  constructor <;> simp [search_vtuber]

/-- `calculate_vtuber_score` on twitch data, written as its component sum. -/
theorem calculate_vtuber_score_twitch (d : ChannelData) :
    calculate_vtuber_score d "twitch" =
      scoreNameHigh (pyLower d.display_name) + scoreTitleHigh (pyLower d.title) +
      scoreNameMedium (pyLower d.display_name) + scoreTitleMedium (pyLower d.title) +
      scoreDescIndicators (pyLower d.description) + scoreAgency (twitchAllText d) +
      scoreLanguage (twitchAllText d) + scoreNegative (twitchAllText d) +
      scoreNonVtuber (twitchAllText d) + scoreAnime (twitchAllText d) +
      scoreStreaming (twitchAllText d) + scoreEmoji (pyLower d.display_name) +
      scoreGamer (pyLower d.display_name) (twitchAllText d) +
      scoreJapanese (twitchAllText d) := rfl

/-- C7 counterexample: the display name `"non"` holds no high-weight keyword;
appending the high-weight keyword `"vtuber"` (title and description fixed at
`""`) creates the negative keyword `"non vtuber"`, and the score does not
increase — it stays exactly equal (+5 high keyword, −5 negative keyword). -/
theorem classifier_add_keyword_no_increase :
    (vtuber_keywords_high.any fun kw => pyIn kw (pyLower "non")) = false ∧
    "vtuber" ∈ vtuber_keywords_high ∧
    calculate_vtuber_score { display_name := "non vtuber" } "twitch" =
      calculate_vtuber_score { display_name := "non" } "twitch" := by decide

/-- C7 amended: putting a high-weight keyword into the display name (title
and description held fixed) strictly increases the classifier score,
provided the edit leaves every other scoring contribution unchanged (no new
negative-keyword, agency, medium-keyword, language, punctuation, … match
appears or disappears). -/
theorem classifier_add_keyword_increases (d d' : ChannelData)
    (ht : d'.title = d.title) (hd : d'.description = d.description)
    (h0 : scoreNameHigh (pyLower d.display_name) = 0)
    (h5 : scoreNameHigh (pyLower d'.display_name) = 5)
    (hm : scoreNameMedium (pyLower d'.display_name) =
      scoreNameMedium (pyLower d.display_name))
    (hemo : scoreEmoji (pyLower d'.display_name) =
      scoreEmoji (pyLower d.display_name))
    (hag : scoreAgency (twitchAllText d') = scoreAgency (twitchAllText d))
    (hlang : scoreLanguage (twitchAllText d') = scoreLanguage (twitchAllText d))
    (hneg : scoreNegative (twitchAllText d') = scoreNegative (twitchAllText d))
    (hnon : scoreNonVtuber (twitchAllText d') = scoreNonVtuber (twitchAllText d))
    (hani : scoreAnime (twitchAllText d') = scoreAnime (twitchAllText d))
    (hstr : scoreStreaming (twitchAllText d') = scoreStreaming (twitchAllText d))
    (hgam : scoreGamer (pyLower d'.display_name) (twitchAllText d') =
      scoreGamer (pyLower d.display_name) (twitchAllText d))
    (hjap : scoreJapanese (twitchAllText d') = scoreJapanese (twitchAllText d)) :
    calculate_vtuber_score d "twitch" < calculate_vtuber_score d' "twitch" := by
  rw [calculate_vtuber_score_twitch, calculate_vtuber_score_twitch, ht, hd,
    h0, h5, hm, hemo, hag, hlang, hneg, hnon, hani, hstr, hgam, hjap]
  linarith

/-- C7 witness: `"abc"` → `"abc vtuber"` changes nothing but the high-weight
keyword and the score strictly increases. -/
theorem classifier_add_keyword_increases_witness :
    calculate_vtuber_score { display_name := "abc" } "twitch" <
      calculate_vtuber_score { display_name := "abc vtuber" } "twitch" :=
  classifier_add_keyword_increases _ _ rfl rfl (by decide) (by decide)
    (by decide) (by decide) (by decide) (by decide) (by decide) (by decide)
    (by decide) (by decide) (by decide) (by decide)

/-- C10: on the YouTube platform the adaptive gate accepts exactly the
candidates whose adaptive score is at least 1.5 — the reported threshold is
2.0, but the fallback branch also admits every score in `[1.5, 2)`. -/
theorem youtube_adaptive_accepts_iff_score_ge (d : ChannelData) (now : ℚ) :
    is_vtuber_channel_adaptive d "youtube" now =
      decide ((3/2 : ℚ) ≤ (calculate_adaptive_score d "youtube" now).1) ∧
    (calculate_adaptive_score d "youtube" now).2 = 2 := by
  have h2 := adaptive_threshold_eq d "youtube" now
  refine ⟨?_, h2⟩
  simp only [is_vtuber_channel_adaptive, h2]
  by_cases hlt : (calculate_adaptive_score d "youtube" now).1 < 2
  · by_cases hge : (3/2 : ℚ) ≤ (calculate_adaptive_score d "youtube" now).1
    · simp [hlt, hge, ge_iff_le]
    · have h2' : ¬ ((2:ℚ) ≤ (calculate_adaptive_score d "youtube" now).1) := by
        intro h; exact hge (by linarith)
      simp [hlt, hge, ge_iff_le, h2']
  · have hge : (3/2 : ℚ) ≤ (calculate_adaptive_score d "youtube" now).1 := by
      push_neg at hlt; linarith
    simp [hlt, ge_iff_le, hge]
    linarith

/-- C2 counterexample: the stop-listed single-word query `"Live"` against
the candidate `"Live"` is accepted — exact equality is tested before the
stop-list, so the fuzzy matcher does not reject a stop word on exact
containment. -/
theorem fuzzy_stop_word_exact_match_accepted :
    is_name_match_fuzzy "Live" "Live" (6/10) = true := by decide

/-- C2 amended: a query that cleans to a single stop-listed word (`gamer`,
`tv`, `official`, `channel`, `live`, `stream`, `youtube`, `twitch`) is
rejected against every candidate whose cleaned name neither equals the
cleaned query nor is a substring of it; exact equality (and a candidate
contained in the query) still match, since those branches precede the
stop-list check. -/
theorem fuzzy_stop_word_rejected (channel_name search_name : String) (t : ℚ)
    (h1 : stripPunct (pyLower search_name) ∈ common_words_contain)
    (h2 : stripPunct (pyLower channel_name) ≠ stripPunct (pyLower search_name))
    (h3 : pyIn (stripPunct (pyLower channel_name))
      (stripPunct (pyLower search_name)) = false) :
    is_name_match_fuzzy channel_name search_name t = false := by
  have hfacts : ∀ x ∈ common_words_contain,
      pySplit x = [x] ∧ x ∈ common_words_single := by decide
  obtain ⟨hsplit, hsingle⟩ := hfacts _ h1
  simp only [is_name_match_fuzzy]
  rw [if_neg h2]
  rw [if_neg (fun hc => hc.2 h1)]
  rw [if_neg (fun hc => by rw [h3] at hc; exact Bool.false_ne_true hc)]
  rw [hsplit]
  rw [if_neg (by simp)]
  rw [if_pos ⟨rfl, by simpa using hsingle⟩]

/-- C2 witness: query `"Live"` against candidate `"MyLiveChannel"` (strict
containment of the stop word) is rejected. -/
theorem fuzzy_stop_word_rejected_witness :
    is_name_match_fuzzy "MyLiveChannel" "Live" (6/10) = false :=
  fuzzy_stop_word_rejected "MyLiveChannel" "Live" (6/10)
    (by decide) (by decide) (by decide)

/-- Members of a tag-stage dict step come from the accumulator or are the
inserted record. -/
theorem mem_dictInsertLast {acc : List VTuber} {v w : VTuber} :
    w ∈ dictInsertLast acc v → w ∈ acc ∨ w = v := by
  induction acc with
  | nil => intro h; right; simpa [dictInsertLast] using h
  | cons x xs ih =>
    intro h
    simp only [dictInsertLast] at h
    by_cases hid : x.id = v.id
    · rw [if_pos hid] at h
      rcases List.mem_cons.mp h with h | h
      · right; exact h
      · left; exact List.mem_cons_of_mem _ h
    · rw [if_neg hid] at h
      rcases List.mem_cons.mp h with h | h
      · left; exact h ▸ List.mem_cons_self _ _
      · rcases ih h with h | h
        · left; exact List.mem_cons_of_mem _ h
        · right; exact h

/-- Members of the folded tag-stage dict come from the accumulator or the
input list. -/
theorem mem_foldl_dictInsertLast {l acc : List VTuber} {w : VTuber} :
    w ∈ l.foldl dictInsertLast acc → w ∈ acc ∨ w ∈ l := by
  induction l generalizing acc with
  | nil => intro h; left; exact h
  | cons v rest ih =>
    intro h
    rcases ih h with h | h
    · rcases mem_dictInsertLast h with h | h
      · left; exact h
      · right; exact h ▸ List.mem_cons_self _ _
    · right; exact List.mem_cons_of_mem _ h

/-- Every record the Twitch tag stage emits lacks the `search_stage` key:
the dict built in `find_vtuber_by_tags` never sets it, so no record can
reach the aggregator marked `"tags"` and the `'tags'` +3 branch of
`sort_by_relevance` is unreachable. -/
theorem find_vtuber_by_tags_search_stage_none (api : TwitchAPI)
    (name : String) :
    ∀ r ∈ find_vtuber_by_tags api name, r.search_stage = none := by
  intro r hr
  simp only [find_vtuber_by_tags] at hr
  rw [List.mem_insertionSort] at hr
  rcases mem_foldl_dictInsertLast hr with h | h
  · simp at h
  · rw [List.mem_flatMap] at h
    obtain ⟨tagid, -, h⟩ := h
    rw [List.mem_flatMap] at h
    obtain ⟨stream, -, h⟩ := h
    rcases huser : (api.getUsers [stream.user_id]).head? with _ | user
    · rw [huser] at h; simp at h
    · rw [huser] at h
      simp only at h
      split_ifs at h with h1 h2
      · rw [List.mem_singleton] at h
        subst h; rfl
      · simp at h
      · simp at h

/-- C1 (the failing end-to-end run): the Kuro candidate is accepted by the
tag stage with score 10 regardless of the classifier, and survives to the
final enhanced results — but its record carries no `search_stage` at all
(`none`), not `"tags"`. -/
theorem tag_stage_kuro_appears_without_stage :
    find_vtuber_enhanced kuroApi "Kuro" 0 = [kuroResult] ∧
    kuroResult.search_stage = none ∧ kuroResult.vtuber_score = 10 ∧
    kuroResult.name = "Kuro_VT" := by decide


/-- Members of a dedupe step come from the accumulator or are the new
record. -/
theorem mem_dedupeInsert {acc : List VTuber} {v w : VTuber} :
    w ∈ dedupeInsert acc v → w ∈ acc ∨ w = v := by
  induction acc with
  | nil => intro h; right; simpa [dedupeInsert] using h
  | cons x xs ih =>
    intro h
    simp only [dedupeInsert] at h
    by_cases hid : x.id = v.id
    · rw [if_pos hid] at h
      by_cases hs : v.vtuber_score > x.vtuber_score
      · rw [if_pos hs] at h
        rcases List.mem_cons.mp h with h | h
        · right; exact h
        · left; exact List.mem_cons_of_mem _ h
      · rw [if_neg hs] at h
        left; exact h
    · rw [if_neg hid] at h
      rcases List.mem_cons.mp h with h | h
      · left; exact h ▸ List.mem_cons_self _ _
      · rcases ih h with h | h
        · left; exact List.mem_cons_of_mem _ h
        · right; exact h

/-- Inserting a fresh id appends. -/
theorem dedupeInsert_append {acc : List VTuber} {v : VTuber}
    (h : ∀ x ∈ acc, x.id ≠ v.id) : dedupeInsert acc v = acc ++ [v] := by
  induction acc with
  | nil => rfl
  | cons x xs ih =>
    have hx : x.id ≠ v.id := h x (List.mem_cons_self _ _)
    simp only [dedupeInsert, if_neg hx, List.cons_append]
    rw [ih fun y hy => h y (List.mem_cons_of_mem _ hy)]

theorem nodup_ids_dedupeInsert {acc : List VTuber} {v : VTuber}
    (h : (acc.map VTuber.id).Nodup) :
    ((dedupeInsert acc v).map VTuber.id).Nodup := by
  induction acc with
  | nil => simp [dedupeInsert]
  | cons x xs ih =>
    simp only [List.map_cons, List.nodup_cons] at h
    obtain ⟨hx, hxs⟩ := h
    by_cases hid : x.id = v.id
    · by_cases hs : v.vtuber_score > x.vtuber_score
      · simp only [dedupeInsert, if_pos hid, if_pos hs, List.map_cons,
          List.nodup_cons]
        exact ⟨by rw [← hid]; exact hx, hxs⟩
      · simp only [dedupeInsert, if_pos hid, if_neg hs, List.map_cons,
          List.nodup_cons]
        exact ⟨hx, hxs⟩
    · simp only [dedupeInsert, if_neg hid, List.map_cons, List.nodup_cons]
      refine ⟨?_, ih hxs⟩
      intro hmem
      rw [List.mem_map] at hmem
      obtain ⟨y, hy, hyid⟩ := hmem
      rcases mem_dedupeInsert hy with hy' | rfl
      · exact hx (List.mem_map.mpr ⟨y, hy', hyid⟩)
      · exact hid hyid.symm

theorem nodup_ids_foldl_dedupeInsert {l : List VTuber} {acc : List VTuber}
    (h : (acc.map VTuber.id).Nodup) :
    ((l.foldl dedupeInsert acc).map VTuber.id).Nodup := by
  induction l generalizing acc with
  | nil => exact h
  | cons v rest ih => exact ih (nodup_ids_dedupeInsert h)

theorem nodup_ids_remove_duplicates (l : List VTuber) :
    ((remove_duplicates l).map VTuber.id).Nodup :=
  nodup_ids_foldl_dedupeInsert (by simp)

theorem foldl_dedupeInsert_eq_append {l acc : List VTuber}
    (h : ((acc ++ l).map VTuber.id).Nodup) :
    l.foldl dedupeInsert acc = acc ++ l := by
  induction l generalizing acc with
  | nil => simp
  | cons v rest ih =>
    have hins : dedupeInsert acc v = acc ++ [v] := by
      apply dedupeInsert_append
      intro x hx hxv
      rw [List.map_append, List.nodup_append] at h
      exact h.2.2 (List.mem_map.mpr ⟨x, hx, rfl⟩) (by rw [hxv]; simp)
    rw [List.foldl_cons, hins]
    have h' : (((acc ++ [v]) ++ rest).map VTuber.id).Nodup := by
      rwa [List.append_assoc, List.singleton_append]
    rw [ih h', List.append_assoc, List.singleton_append]

theorem remove_duplicates_idem (l : List VTuber) :
    remove_duplicates (remove_duplicates l) = remove_duplicates l := by
  have h := nodup_ids_remove_duplicates l
  have h2 : (remove_duplicates l).foldl dedupeInsert [] = [] ++ remove_duplicates l :=
    foldl_dedupeInsert_eq_append (by simpa using h)
  simpa [remove_duplicates] using h2

theorem exists_ge_dedupeInsert_of_mem {acc : List VTuber} {v w : VTuber}
    (h : w ∈ acc) :
    ∃ w' ∈ dedupeInsert acc v, w'.id = w.id ∧ w.vtuber_score ≤ w'.vtuber_score := by
  induction acc with
  | nil => cases h
  | cons x xs ih =>
    rcases List.mem_cons.mp h with rfl | h
    · by_cases hid : w.id = v.id
      · by_cases hs : v.vtuber_score > w.vtuber_score
        · exact ⟨v, by simp [dedupeInsert, hid, hs], by rw [hid], le_of_lt hs⟩
        · exact ⟨w, by simp [dedupeInsert, hid, hs], rfl, le_refl _⟩
      · exact ⟨w, by simp [dedupeInsert, hid], rfl, le_refl _⟩
    · by_cases hid : x.id = v.id
      · by_cases hs : v.vtuber_score > x.vtuber_score
        · exact ⟨w, by simp [dedupeInsert, hid, hs, h], rfl, le_refl _⟩
        · exact ⟨w, by simp [dedupeInsert, hid, hs, h], rfl, le_refl _⟩
      · obtain ⟨w', hw', hid', hle⟩ := ih h
        refine ⟨w', ?_, hid', hle⟩
        simp only [dedupeInsert, if_neg hid]
        exact List.mem_cons_of_mem _ hw' 

theorem exists_ge_dedupeInsert_self (acc : List VTuber) (v : VTuber) :
    ∃ w' ∈ dedupeInsert acc v, w'.id = v.id ∧ v.vtuber_score ≤ w'.vtuber_score := by
  induction acc with
  | nil => exact ⟨v, by simp [dedupeInsert], rfl, le_refl _⟩
  | cons x xs ih =>
    by_cases hid : x.id = v.id
    · by_cases hs : v.vtuber_score > x.vtuber_score
      · exact ⟨v, by simp [dedupeInsert, hid, hs], rfl, le_refl _⟩
      · exact ⟨x, by simp [dedupeInsert, hid, hs], hid, le_of_not_lt hs⟩
    · obtain ⟨w', hw', hid', hle⟩ := ih
      refine ⟨w', ?_, hid', hle⟩
      simp only [dedupeInsert, if_neg hid]
      exact List.mem_cons_of_mem _ hw' 

theorem exists_ge_foldl_of_mem {l acc : List VTuber} {w : VTuber} (h : w ∈ acc) :
    ∃ w' ∈ l.foldl dedupeInsert acc,
      w'.id = w.id ∧ w.vtuber_score ≤ w'.vtuber_score := by
  induction l generalizing acc w with
  | nil => exact ⟨w, h, rfl, le_refl _⟩
  | cons v rest ih =>
    obtain ⟨w1, hw1, hid1, hle1⟩ := exists_ge_dedupeInsert_of_mem (v := v) h
    obtain ⟨w2, hw2, hid2, hle2⟩ := ih hw1
    exact ⟨w2, hw2, hid2.trans hid1, le_trans hle1 hle2⟩

theorem exists_ge_remove_duplicates {l : List VTuber} {v : VTuber} (h : v ∈ l) :
    ∃ w ∈ remove_duplicates l, w.id = v.id ∧ v.vtuber_score ≤ w.vtuber_score := by
  suffices h' : ∀ (l : List VTuber) (acc : List VTuber) (v : VTuber), v ∈ l →
      ∃ w ∈ l.foldl dedupeInsert acc,
        w.id = v.id ∧ v.vtuber_score ≤ w.vtuber_score from h' l [] v h
  intro l
  induction l with
  | nil => intro acc v h; cases h
  | cons x rest ih =>
    intro acc v h
    rcases List.mem_cons.mp h with rfl | h
    · obtain ⟨w1, hw1, hid1, hle1⟩ := exists_ge_dedupeInsert_self acc v
      obtain ⟨w2, hw2, hid2, hle2⟩ := exists_ge_foldl_of_mem hw1
      exact ⟨w2, hw2, hid2.trans hid1, le_trans hle1 hle2⟩
    · exact ih _ _ h

theorem surviving_score_ge {l : List VTuber} {v w : VTuber} (hv : v ∈ l)
    (hw : w ∈ remove_duplicates l) (hid : w.id = v.id) :
    v.vtuber_score ≤ w.vtuber_score := by
  obtain ⟨w', hw', hid', hle⟩ := exists_ge_remove_duplicates hv
  have heq : w = w' :=
    List.inj_on_of_nodup_map (nodup_ids_remove_duplicates l) hw hw'
      (by rw [hid, hid'])
  rw [heq]; exact hle

theorem mem_dedupeInsert_of_dominates {acc : List VTuber} {v x : VTuber}
    (hx : x ∈ acc) (hv : v.id = x.id → v.vtuber_score ≤ x.vtuber_score) :
    x ∈ dedupeInsert acc v := by
  induction acc with
  | nil => cases hx
  | cons y ys ih =>
    rcases List.mem_cons.mp hx with rfl | hx
    · by_cases hid : x.id = v.id
      · have hs : ¬ v.vtuber_score > x.vtuber_score := not_lt.mpr (hv hid.symm)
        simp [dedupeInsert, hid, hs]
      · simp [dedupeInsert, hid]
    · by_cases hid : y.id = v.id
      · by_cases hs : v.vtuber_score > y.vtuber_score
        · simp only [dedupeInsert, if_pos hid, if_pos hs]
          exact List.mem_cons_of_mem _ hx
        · simp only [dedupeInsert, if_pos hid, if_neg hs]
          exact List.mem_cons_of_mem _ hx
      · simp only [dedupeInsert, if_neg hid]
        exact List.mem_cons_of_mem _ (ih hx)

theorem mem_foldl_of_dominates {l acc : List VTuber} {x : VTuber} (hx : x ∈ acc)
    (hall : ∀ v ∈ l, v.id = x.id → v.vtuber_score ≤ x.vtuber_score) :
    x ∈ l.foldl dedupeInsert acc := by
  induction l generalizing acc with
  | nil => exact hx
  | cons v rest ih =>
    exact ih (mem_dedupeInsert_of_dominates hx (hall v (List.mem_cons_self _ _)))
      fun y hy => hall y (List.mem_cons_of_mem _ hy)

theorem first_max_survives_aux {l acc : List VTuber} {x : VTuber}
    (hacc : ∀ w ∈ acc, w.id ≠ x.id)
    (hfind : l.find? (fun r => r.id == x.id) = some x)
    (hall : ∀ y ∈ l, y.id = x.id → y.vtuber_score ≤ x.vtuber_score) :
    x ∈ l.foldl dedupeInsert acc := by
  induction l generalizing acc with
  | nil => simp at hfind
  | cons a rest ih =>
    by_cases ha : a.id = x.id
    · have hax : a = x := by
        rw [List.find?_cons_of_pos _ (by simp [ha])] at hfind
        exact Option.some_injective _ hfind
      subst hax
      rw [List.foldl_cons, dedupeInsert_append fun w hw => hacc w hw]
      exact mem_foldl_of_dominates (by simp)
        fun y hy => hall y (List.mem_cons_of_mem _ hy)
    · have hfind' : rest.find? (fun r => r.id == x.id) = some x := by
        rwa [List.find?_cons_of_neg _ (by simp [ha])] at hfind
      rw [List.foldl_cons]
      apply ih ?_ hfind' fun y hy => hall y (List.mem_cons_of_mem _ hy)
      intro w hw
      rcases mem_dedupeInsert hw with hw' | rfl
      · exact hacc w hw'
      · exact ha

theorem first_max_survives {l : List VTuber} {x : VTuber}
    (hfind : l.find? (fun r => r.id == x.id) = some x)
    (hall : ∀ y ∈ l, y.id = x.id → y.vtuber_score ≤ x.vtuber_score) :
    x ∈ remove_duplicates l :=
  first_max_survives_aux (by simp) hfind hall

/-- C4: `remove_duplicates` is idempotent; every surviving record's score is
at least the score of every input record sharing its id; and the first-seen
record of an id survives whenever no later record of that id strictly beats
its score (in particular, ties keep the first seen, since replacement
happens only on a strictly higher score). -/
theorem remove_duplicates_spec :
    (∀ l, remove_duplicates (remove_duplicates l) = remove_duplicates l) ∧
    (∀ (l : List VTuber) (v w : VTuber), v ∈ l → w ∈ remove_duplicates l →
      w.id = v.id → v.vtuber_score ≤ w.vtuber_score) ∧
    (∀ (l : List VTuber) (x : VTuber),
      l.find? (fun r => r.id == x.id) = some x →
      (∀ y ∈ l, y.id = x.id → y.vtuber_score ≤ x.vtuber_score) →
      x ∈ remove_duplicates l) :=
  ⟨remove_duplicates_idem,
   fun _ _ _ hv hw hid => surviving_score_ge hv hw hid,
   fun _ _ h1 h2 => first_max_survives h1 h2⟩

/-- C4 witness: on `[vLow, vHigh]` (same id, scores 1 < 2) the survivor
dominates the discarded score; on `[vTieA, vTieB]` (same id, tied scores)
the first-seen record survives. -/
theorem remove_duplicates_spec_witness :
    vLow.vtuber_score ≤ vHigh.vtuber_score ∧
    vTieA ∈ remove_duplicates [vTieA, vTieB] :=
  ⟨remove_duplicates_spec.2.1 [vLow, vHigh] vLow vHigh (by decide) (by decide)
    (by decide),
   remove_duplicates_spec.2.2 [vTieA, vTieB] vTieA (by decide) (by decide)⟩

/-- C5: `sort_by_relevance` (twitch platform: bonuses live +2, verified
partner/affiliate +1, viewer count > 100 +0.5, and +3 for
`search_stage = "tags"`, on top of `vtuber_score`) sorts by descending
relevance, keeps records of equal relevance in input order (stability:
any equal-relevance pair that appears in order in the input still appears
in order in the output), and is idempotent. -/
theorem sort_by_relevance_spec :
    (∀ l : List VTuber, (sort_by_relevance l "twitch").Sorted
      fun a b => relevance_score "twitch" b ≤ relevance_score "twitch" a) ∧
    (∀ (l : List VTuber) (a b : VTuber),
      relevance_score "twitch" a = relevance_score "twitch" b →
      List.Sublist [a, b] l → List.Sublist [a, b] (sort_by_relevance l "twitch")) ∧
    (∀ l : List VTuber,
      sort_by_relevance (sort_by_relevance l "twitch") "twitch" =
        sort_by_relevance l "twitch") := by
  haveI instTot : IsTotal VTuber
      (fun a b => relevance_score "twitch" b ≤ relevance_score "twitch" a) :=
    ⟨fun _ _ => le_total _ _⟩
  haveI instTrans : IsTrans VTuber
      (fun a b => relevance_score "twitch" b ≤ relevance_score "twitch" a) :=
    ⟨fun _ _ _ h1 h2 => le_trans h2 h1⟩
  refine ⟨?_, ?_, ?_⟩
  · intro l
    exact List.sorted_insertionSort _ l
  · intro l a b hab hsub
    exact List.pair_sublist_insertionSort (le_of_eq hab.symm) hsub
  · intro l
    exact List.Sorted.insertionSort_eq (List.sorted_insertionSort _ l)

/-- C5 witness: two records with tied relevance stay in input order. -/
theorem sort_by_relevance_spec_witness :
    List.Sublist [vTieA, vTieB] (sort_by_relevance [vTieA, vTieB] "twitch") :=
  sort_by_relevance_spec.2.1 [vTieA, vTieB] vTieA vTieB (by decide)
    (List.Sublist.refl _)
